import Mathlib

/-!
# Formal model of `pycontroller.py`

A shallow embedding of the controller-monitor script.  The module is a
single top-level sequence: set up pygame and its joystick module, then a
bare-name expression statement `c` on line 5, then the device-count
check; when a device is present, it binds the joystick at index 0,
prints its name, and runs an infinite polling loop inside a
try/except-KeyboardInterrupt/finally block.  Runs are parameterised by
the environment: the reported device count, the device name, the finite
observed sequence of event-queue polls, and an interrupt schedule.
-/

/-- An input event drained from the event queue, as dispatched on by
`event.type` in the main loop (lines 16-30 of `pycontroller.py`).  The
axis value is a Python float that the program only ever interpolates
into an f-string; it is modelled by the decimal rendering that `print`
emits for it. -/
inductive Event where
  | joyAxisMotion (axis : Nat) (value : String)
  | joyButtonDown (button : Nat)
  | joyButtonUp (button : Nat)
  | other (ty : Nat)
  deriving DecidableEq, Repr

/-- When, if ever, a KeyboardInterrupt is delivered.  Interrupts are
modelled at statement granularity, at the points the program text
distinguishes: `atStartup k` fires in the else branch before its
statement number `k` (0 = the `Joystick(0)` binding, 1 = `joystick.init()`,
2 = the name print, 3 or more = after the name print but before the
`try` block is entered); `inLoop i j` fires inside the main loop during
iteration `i`, after `j` events of that iteration have been handled. -/
inductive Intr where
  | never
  | atStartup (k : Nat)
  | inLoop (i j : Nat)
  deriving DecidableEq, Repr

/-- How an observed execution of the script ends: the module ran to
completion; the observation window closed with the main loop still live;
an uncaught NameError; or an uncaught KeyboardInterrupt. -/
inductive Outcome where
  | normal
  | running
  | nameError (n : String)
  | uncaughtInterrupt
  deriving DecidableEq, Repr

/-- Observable result of a run: the lines printed to stdout in order,
the number of times `pygame.quit()` was invoked, and how the run
ended. -/
structure RunResult where
  out : List String
  quitCalls : Nat
  outcome : Outcome
  deriving DecidableEq, Repr

/-- The event dispatch of the for-loop body (lines 17-30): exactly one
line is printed per drained event, selected on `event.type`. -/
def handleEvent : Event → String
  | .joyAxisMotion a v => "Axis " ++ toString a ++ " moved to " ++ v
  | .joyButtonDown b => "Button " ++ toString b ++ " pressed"
  | .joyButtonUp b => "Button " ++ toString b ++ " released"
  | .other _ => "Waiting"

/-- One iteration of the while-loop drains the queue returned by
`pygame.event.get()` and prints one line per event (line 16). -/
def processBatch (events : List Event) : List String :=
  events.map handleEvent

/-- The `while True` loop (lines 15-30), observed over a finite prefix
of queue polls: the i-th call of `pygame.event.get()` returns
`batches[i]`.  The second component records whether a KeyboardInterrupt
was raised inside the loop: `some (i, j)` schedules one in iteration `i`
after `j` events of that iteration were handled.  When the schedule
points past the observed prefix (or there is none), the loop is still
live after the prefix: the loop itself has no exit. -/
def runLoop : List (List Event) → Option (Nat × Nat) → List String × Bool
  | [], _ => ([], false)
  | b :: rest, none =>
    let r := runLoop rest none
    (processBatch b ++ r.1, r.2)
  | b :: _, some (0, j) => (processBatch (b.take j), true)
  | b :: rest, some (i + 1, j) =>
    let r := runLoop rest (some (i, j))
    (processBatch b ++ r.1, r.2)

/-- Lines 6-35 of `pycontroller.py`: the device-count check and, when a
device is present, the binding at index 0, the name print, and the
try/except/finally around the main loop.  `count` models
`pygame.joystick.get_count()` and `name` models `joystick.get_name()`.
On the zero-device branch the module ends after the print, with no
teardown.  A pre-try interrupt propagates uncaught: the except clause
and the finally clause belong to the `try` statement, which has not been
entered.  A loop interrupt is caught by the except clause, which prints
`Exiting.`, and the finally clause then runs `pygame.quit()` once. -/
def runBody (count : Nat) (name : String) (batches : List (List Event))
    (intr : Intr) : RunResult :=
  if count = 0 then
    { out := ["No joystick found."], quitCalls := 0, outcome := .normal }
  else
    match intr with
    | .atStartup k =>
      { out := if k ≤ 2 then [] else ["Connected controller: " ++ name],
        quitCalls := 0, outcome := .uncaughtInterrupt }
    | .never =>
      { out := ("Connected controller: " ++ name) :: (runLoop batches none).1,
        quitCalls := 0, outcome := .running }
    | .inLoop i j =>
      let r := runLoop batches (some (i, j))
      if r.2 then
        { out := ("Connected controller: " ++ name) :: r.1 ++ ["Exiting."],
          quitCalls := 1, outcome := .normal }
      else
        { out := ("Connected controller: " ++ name) :: r.1,
          quitCalls := 0, outcome := .running }

/-- The module namespace when line 5 executes: lines 1-4 bind only
`pygame` (the import); `pygame.init()` and `pygame.joystick.init()` bind
no new names. -/
def namesAtLine5 : List String := ["pygame"]

/-- Evaluating a bare name at module level: bound names evaluate,
unbound ones raise NameError. -/
def lookupName (env : List String) (n : String) : Bool :=
  env.contains n

/-- The whole module, lines 1-35: lines 3-4 set up pygame and its
joystick module (printing nothing), then the bare-name expression
statement `c` on line 5 runs; if that raises NameError the exception
propagates uncaught and nothing below line 5 runs, otherwise execution
continues with the rest of the module. -/
def runModule (count : Nat) (name : String) (batches : List (List Event))
    (intr : Intr) : RunResult :=
  if lookupName namesAtLine5 "c" then runBody count name batches intr
  else { out := [], quitCalls := 0, outcome := .nameError "c" }

/-- Two strings of different lengths differ. -/
theorem ne_of_length_ne {a b : String} (h : a.length ≠ b.length) : a ≠ b :=
  fun e => h (congrArg String.length e)

/-- No dispatch line of the loop body is the shutdown message. -/
theorem handleEvent_ne_exiting (e : Event) : handleEvent e ≠ "Exiting." := by
  cases e with
  | joyAxisMotion a v =>
    apply ne_of_length_ne
    simp only [handleEvent, String.length_append]
    have h1 : "Axis ".length = 5 := rfl
    have h2 : " moved to ".length = 10 := rfl
    have h3 : "Exiting.".length = 8 := rfl
    omega
  | joyButtonDown b =>
    apply ne_of_length_ne
    simp only [handleEvent, String.length_append]
    have h1 : "Button ".length = 7 := rfl
    have h2 : " pressed".length = 8 := rfl
    have h3 : "Exiting.".length = 8 := rfl
    omega
  | joyButtonUp b =>
    apply ne_of_length_ne
    simp only [handleEvent, String.length_append]
    have h1 : "Button ".length = 7 := rfl
    have h2 : " released".length = 9 := rfl
    have h3 : "Exiting.".length = 8 := rfl
    omega
  | other ty =>
    intro h
    simp only [handleEvent] at h
    exact absurd h (by decide)

/-- The connected-controller line is never the shutdown message. -/
theorem conn_ne_exiting (name : String) :
    "Connected controller: " ++ name ≠ "Exiting." := by
  apply ne_of_length_ne
  rw [String.length_append]
  have h1 : "Connected controller: ".length = 22 := rfl
  have h2 : "Exiting.".length = 8 := rfl
  omega

/-- Every line the loop prints is the dispatch of some drained event. -/
theorem mem_runLoop_out {batches : List (List Event)}
    {o : Option (Nat × Nat)} {x : String}
    (h : x ∈ (runLoop batches o).1) : ∃ e : Event, x = handleEvent e := by
  induction batches generalizing o with
  | nil => simp [runLoop] at h
  | cons b rest ih =>
    match o with
    | none =>
      simp only [runLoop, List.mem_append, processBatch, List.mem_map] at h
      rcases h with ⟨e, _, he⟩ | h2
      · exact ⟨e, he.symm⟩
      · exact ih h2
    | some (0, j) =>
      simp only [runLoop, processBatch, List.mem_map] at h
      rcases h with ⟨e, _, he⟩
      exact ⟨e, he.symm⟩
    | some (i + 1, j) =>
      simp only [runLoop, List.mem_append, processBatch, List.mem_map] at h
      rcases h with ⟨e, _, he⟩ | h2
      · exact ⟨e, he.symm⟩
      · exact ih h2

/-- The shutdown message never occurs among the loop's dispatch lines. -/
theorem count_exiting_runLoop (batches : List (List Event))
    (o : Option (Nat × Nat)) :
    ((runLoop batches o).1).count "Exiting." = 0 := by
  rw [List.count_eq_zero]
  intro h
  rcases mem_runLoop_out h with ⟨e, he⟩
  exact handleEvent_ne_exiting e he.symm

/-- An interrupt scheduled within the observed prefix fires. -/
theorem runLoop_fires {batches : List (List Event)} {i j : Nat}
    (h : i < batches.length) :
    (runLoop batches (some (i, j))).2 = true := by
  induction batches generalizing i with
  | nil => simp at h
  | cons b rest ih =>
    cases i with
    | zero => simp [runLoop]
    | succ i =>
      have hi : i < rest.length := by
        simpa using Nat.lt_of_succ_lt_succ (by simpa using h)
      simpa [runLoop] using ih hi

/-- With no interrupt, the observed loop prefix never raises one. -/
theorem runLoop_none_not_fired (batches : List (List Event)) :
    (runLoop batches none).2 = false := by
  induction batches with
  | nil => rfl
  | cons b rest ih => simpa [runLoop] using ih

/-- C1: every run of the module, whatever the device count, device name,
event sequence, and interrupt schedule, aborts with an uncaught
NameError from the bare name `c` on line 5: nothing is printed,
`pygame.quit()` is never invoked, and neither branch of the
device-count check on line 7 is reached. -/
theorem C1_module_always_nameError (count : Nat) (name : String)
    (batches : List (List Event)) (intr : Intr) :
    runModule count name batches intr =
      { out := [], quitCalls := 0, outcome := .nameError "c" } := rfl

/-- C2 (evaluation of the code at the failing input): with zero
connected devices the module does not print `No joystick found.` and
does not exit normally: it aborts with the line-5 NameError having
printed nothing, so the zero-device branch never runs. -/
theorem C2_zero_devices_nameError :
    runModule 0 "" [] .never =
      { out := [], quitCalls := 0, outcome := .nameError "c" } := rfl

/-- C3 (counterexample): a terminating zero-device execution that never
invokes the teardown.  The module run aborts with NameError without
calling `pygame.quit()`, and even the code past the line-5 failure
(lines 6-35) terminates normally on the zero-device path with
`pygame.quit()` never invoked. -/
theorem C3_counterexample :
    (runModule 0 "" [] .never).quitCalls = 0 ∧
    (runModule 0 "" [] .never).outcome = .nameError "c" ∧
    runBody 0 "" [] .never =
      { out := ["No joystick found."], quitCalls := 0, outcome := .normal } :=
  ⟨rfl, rfl, rfl⟩

/-- C3 (amended): teardown is not invoked on every terminating
execution.  The module as written never invokes it (every run aborts at
line 5), and in the rest of the program (lines 6-35) the zero-device
path terminates normally without teardown; `pygame.quit()` runs, exactly
once, only when the main loop's try block is entered and the loop is
interrupted. -/
theorem C3_teardown_only_after_loop_interrupt (count n j : Nat)
    (name : String) (batches : List (List Event)) (b : List Event)
    (rest : List (List Event)) (intr : Intr) :
    (runModule count name batches intr).quitCalls = 0 ∧
    (runBody 0 name batches intr).quitCalls = 0 ∧
    (runBody (n + 1) name (b :: rest) (.inLoop 0 j)).quitCalls = 1 := by
  refine ⟨rfl, rfl, ?_⟩
  simp [runBody, runLoop]

/-- C4: whenever the interrupt fires inside the main loop — at any
iteration `i` of the observed prefix, after any number `j` of events of
that iteration were handled — the run prints `Exiting.` exactly once,
invokes `pygame.quit()` exactly once, and ends normally. -/
theorem C4_loop_interrupt_cleanup (n i j : Nat) (name : String)
    (batches : List (List Event)) (h : i < batches.length) :
    ((runBody (n + 1) name batches (.inLoop i j)).out).count "Exiting." = 1 ∧
    (runBody (n + 1) name batches (.inLoop i j)).quitCalls = 1 ∧
    (runBody (n + 1) name batches (.inLoop i j)).outcome = .normal := by
  have hf : (runLoop batches (some (i, j))).2 = true := runLoop_fires h
  refine ⟨?_, ?_, ?_⟩ <;>
    simp [runBody, hf, List.count_cons, List.count_append,
      count_exiting_runLoop, conn_ne_exiting name]

/-- C4 witness: a concrete interrupted run with one button event handled
before the interrupt. -/
theorem C4_loop_interrupt_cleanup_witness :
    ((runBody 1 "X" [[Event.joyButtonDown 3]] (.inLoop 0 1)).out).count
        "Exiting." = 1 ∧
    (runBody 1 "X" [[Event.joyButtonDown 3]] (.inLoop 0 1)).quitCalls = 1 ∧
    (runBody 1 "X" [[Event.joyButtonDown 3]] (.inLoop 0 1)).outcome =
      .normal :=
  C4_loop_interrupt_cleanup 0 0 1 "X" [[Event.joyButtonDown 3]] (by decide)

/-- C5 (evaluation of the code at the failing input): with one device
named `X` connected the module prints nothing — the line-5 NameError
aborts the run before the device is bound, so `Connected controller: X`
never appears and no event is processed. -/
theorem C5_device_nameError :
    runModule 1 "X" [] .never =
      { out := [], quitCalls := 0, outcome := .nameError "c" } := rfl

/-- C6: an axis-motion event with axis `a` and value `v` drained in a
loop iteration contributes exactly one printed line, `Axis a moved
to v`, in its queue position; in particular axis 1 at value 0.5 yields
`Axis 1 moved to 0.5`. -/
theorem C6_axis_motion_line (a : Nat) (v : String) (pre suf : List Event) :
    processBatch (pre ++ Event.joyAxisMotion a v :: suf) =
      processBatch pre ++
        ("Axis " ++ toString a ++ " moved to " ++ v) :: processBatch suf ∧
    handleEvent (.joyAxisMotion 1 "0.5") = "Axis 1 moved to 0.5" := by
  refine ⟨?_, rfl⟩
  simp [processBatch, handleEvent]

/-- C7: a button-down event with button `b` drained in a loop iteration
contributes exactly one line `Button b pressed`, and a button-up event
contributes exactly one line `Button b released`; in particular button 3
yields `Button 3 pressed` and `Button 3 released`. -/
theorem C7_button_lines (b : Nat) (pre suf : List Event) :
    (processBatch (pre ++ Event.joyButtonDown b :: suf) =
      processBatch pre ++
        ("Button " ++ toString b ++ " pressed") :: processBatch suf) ∧
    (processBatch (pre ++ Event.joyButtonUp b :: suf) =
      processBatch pre ++
        ("Button " ++ toString b ++ " released") :: processBatch suf) ∧
    handleEvent (.joyButtonDown 3) = "Button 3 pressed" ∧
    handleEvent (.joyButtonUp 3) = "Button 3 released" := by
  refine ⟨?_, ?_, rfl, rfl⟩ <;> simp [processBatch, handleEvent]

/-- C8: an event of any kind other than the three handled ones
contributes exactly one line `Waiting`, and the dispatch is total: a
drained queue of any `n` events produces exactly `n` lines. -/
theorem C8_other_waiting_total (ty : Nat) (pre suf evs : List Event) :
    processBatch (pre ++ Event.other ty :: suf) =
      processBatch pre ++ "Waiting" :: processBatch suf ∧
    (processBatch evs).length = evs.length := by
  refine ⟨?_, ?_⟩ <;> simp [processBatch, handleEvent]

/-- C9: the main loop never terminates on its own: over any finite
observed prefix of polls with no interrupt, no iteration raises an exit,
the program is still inside the loop afterwards with no teardown, and an
empty poll contributes no output while the loop simply continues with
the remaining polls. -/
theorem C9_loop_never_exits (n : Nat) (name : String)
    (batches : List (List Event)) :
    (runLoop batches none).2 = false ∧
    (runBody (n + 1) name batches .never).outcome = .running ∧
    (runBody (n + 1) name batches .never).quitCalls = 0 ∧
    runLoop ([] :: batches) none = runLoop batches none := by
  refine ⟨runLoop_none_not_fired batches, ?_, ?_, ?_⟩
  · simp [runBody]
  · simp [runBody]
  · simp [runLoop, processBatch]

/-- C10: a KeyboardInterrupt delivered after the device-count check
found a device but before the try block is entered — before any of the
else-branch startup statements (the `Joystick(0)` binding, its init, the
name print) or just before the `try` itself — is not caught: the run
ends with an uncaught interrupt, `Exiting.` is never printed, and
`pygame.quit()` is never invoked. -/
theorem C10_pre_try_interrupt_uncaught (n k : Nat) (name : String)
    (batches : List (List Event)) :
    (runBody (n + 1) name batches (.atStartup k)).outcome =
      .uncaughtInterrupt ∧
    (runBody (n + 1) name batches (.atStartup k)).quitCalls = 0 ∧
    "Exiting." ∉ (runBody (n + 1) name batches (.atStartup k)).out := by
  refine ⟨?_, ?_, ?_⟩
  · simp [runBody]
  · simp [runBody]
  · simp only [runBody]
    by_cases hk : k ≤ 2
    · simp [hk]
    · simp only [hk, if_false, if_neg (Nat.succ_ne_zero n)]
      intro hmem
      simp only [List.mem_singleton] at hmem
      exact conn_ne_exiting name hmem.symm
